import Mathlib

/-!
Verification development for the Mental-Health-Awareness-Website repository.

Shallow embedding of the client script (`script.js`) and of the server
(`server.js`): validation functions, sanitization, route handlers, and the
admin Basic-Auth gate, together with theorems settling the specification
claims about them.

External capabilities (database inserts, the SMTP transport, base64
decoding of the Authorization header, the current time) are passed to the
embedded handlers as explicit parameters, mirroring the spec's treatment of
them as collaborators ("insert row, return identifier",
"send(to, subject, body) -> delivered | failed").
-/

namespace MHAW

/-! ## Client-side score calculation (script.js, calculateScore) -/

/-- Result of `calculateScore`: either the warning state (some question
unanswered: the results container gets this innerHTML, background color and
text color and the function returns), or a computed outcome carrying the
mental-health state string, the advice string, the two colors set on the
results container, and the average score. -/
inductive CalcResult
  | warning (html : String) (bg : String) (textColor : String)
  | outcome (state : String) (advice : String) (bg : String) (textColor : String)
      (avg : ℚ)
  deriving Repr, DecidableEq

/-- Embedding of `calculateScore` from script.js. The twelve radio groups
q1..q12 are modelled as a list of `Option ℕ`: `some v` when the group has a
selected (truthy) value parsing to `v`, `none` when unanswered. The loop
accumulates `totalScore` and `answeredQuestions` over the answered groups;
averages are exact rationals (the JS doubles are exact far from the band
thresholds, and the thresholds 3.5, 3, 2.5 are reached exactly at totals
42, 36, 30). -/
def calculateScore (answers : List (Option ℕ)) : CalcResult :=
  let questionsCount : ℕ := 12
  let totalScore : ℕ := (answers.filterMap id).sum
  let answeredQuestions : ℕ := (answers.filterMap id).length
  if answeredQuestions < questionsCount then
    .warning "<h3>Please answer all questions to see your score.</h3>" "#ffc107" "#333"
  else
    let averageScore : ℚ := (totalScore : ℚ) / (questionsCount : ℚ)
    if averageScore ≥ 3.5 then
      .outcome "Healthy"
        "You seem to be in a good mental state. Keep maintaining your healthy habits, stay connected with others, and continue to prioritize your well-being."
        "#d4edda" "#155724" averageScore
    else if averageScore ≥ 3 then
      .outcome "Mild Concerns"
        "You may be experiencing some minor stress or emotional challenges. It\x27s a good time to focus on self-care, such as exercise, nutrition, and mindfulness. Talking to a friend or family member may also be helpful."
        "#fff3cd" "#856404" averageScore
    else if averageScore ≥ 2.5 then
      .outcome "Moderate Concerns"
        "Your responses suggest you are facing notable mental health challenges. It is highly recommended to speak with a trusted individual. Exploring resources on our site or contacting a professional could provide significant support."
        "#f8d7da" "#721c24" averageScore
    else
      .outcome "Severe Concerns"
        "It appears you are going through a difficult time. Please prioritize your mental health and seek professional help. You are not alone, and support is available. Please visit our <a href=\x22Contact.html\x22>Contact</a> page to find a professional near you."
        "#dc3545" "white" averageScore

/-! ## Server-side model (server.js) -/

/-- A JSON value, as produced by the `res.json(...)` calls of the route
handlers. Objects keep their fields in source order. -/
inductive Json
  | bool (b : Bool)
  | num (n : ℕ)
  | str (s : String)
  | arr (xs : List Json)
  | obj (fields : List (String × Json))
  | null
  deriving Repr

/-- Whether a JSON object body carries a field of the given key. -/
def Json.hasKey : Json → String → Bool
  | .obj fields, k => fields.any (fun f => f.1 = k)
  | _, _ => false

/-- An HTTP response as assembled by the handlers: status code (200 when
`res.json` is called without `res.status`), response headers set via
`res.setHeader`, and the JSON (or, for the admin gate, plain-text) body. -/
structure HttpResponse where
  status : ℕ
  headers : List (String × String) := []
  body : Json
  deriving Repr

/-- A request-body field as the validators see it: absent (or of a
non-string type, which every string validation rejects the same way), or a
string. JS truthiness of such a field: a present non-empty string. -/
inductive JSField
  | missing
  | str (s : String)
  deriving Repr, DecidableEq

/-- JS truthiness of a string-or-absent field (`!data.email` etc.). -/
def JSField.truthy : JSField → Bool
  | .missing => false
  | .str s => s ≠ ""

/-- The string carried by a field, for the branches that only run once the
field is known to be a string. -/
def JSField.string : JSField → String
  | .missing => ""
  | .str s => s

/-- Embedding of `String.prototype.trim`: strip whitespace from both ends.
(Stated over the common whitespace characters; the extra Unicode space
characters JS also strips play no role in any claim.) -/
def jsTrim (s : String) : String :=
  String.mk ((s.data.dropWhile Char.isWhitespace).reverse.dropWhile Char.isWhitespace).reverse

/-- Embedding of `String.prototype.split` with a one-character separator:
`splitAtChar sep s` never returns `[]` and concatenating its parts with
`sep` gives back `s`. -/
def splitAtChar (sep : Char) : List Char → List (List Char)
  | [] => [[]]
  | c :: cs =>
    match splitAtChar sep cs with
    | [] => [[]]
    | part :: parts =>
      if c = sep then [] :: part :: parts else (c :: part) :: parts

/-- Embedding of `String.prototype.startsWith`. -/
def jsStartsWith (s pre : String) : Bool :=
  pre.data.isPrefixOf s.data

/-- Embedding of `isValidEmail` (server.js): full match of the regex
`^[^\s@]+@[^\s@]+\.[^\s@]+$`. Since both character classes exclude `@`,
a string matches exactly when it splits at its unique `@` into a non-empty
local part of class characters and a remainder of class characters that
contains a `.` neither first nor last. -/
def isValidEmail (s : String) : Bool :=
  let emailChar : Char → Bool := fun c => !c.isWhitespace && c ≠ '@'
  match s.data.splitOn '@' with
  | [localPart, rest] =>
    !localPart.isEmpty && localPart.all emailChar &&
      rest.all emailChar && ((rest.drop 1).dropLast.contains '.')
  | _ => false

/-- Embedding of `validateStringField` (server.js): type check, trim, then
length bounds; `.error e` stands for `{valid:false, error:e}` and `.ok v`
for `{valid:true, value:v}`. -/
def validateStringField (value : JSField) (fieldName : String)
    (minLength : ℕ := 1) (maxLength : ℕ := 255) : Except String String :=
  match value with
  | .missing => .error (fieldName ++ " must be a string.")
  | .str s =>
    let trimmed := jsTrim s
    if trimmed.length < minLength then
      .error (fieldName ++ " is required (minimum " ++ toString minLength ++ " character).")
    else if trimmed.length > maxLength then
      .error (fieldName ++ " exceeds maximum length of " ++ toString maxLength ++ " characters.")
    else .ok trimmed

/-- The error list of a field validation, as pushed onto `errors`. -/
def errOf : Except String String → List String
  | .error e => [e]
  | .ok _ => []

/-- The normalized value of a field validation (meaningful once valid). -/
def valOf : Except String String → String
  | .error _ => ""
  | .ok v => v

/-- The email checks duplicated verbatim in `validateRegistration` and
`validateContact` (server.js): `!data.email || typeof data.email !==
'string'` pushes "Email is required.", else a failed regex test pushes
"Email format is invalid.", else a trimmed length over 255 pushes the
length error. -/
def emailFieldErrors (email : JSField) : List String :=
  if !email.truthy then ["Email is required."]
  else if !isValidEmail (jsTrim email.string) then ["Email format is invalid."]
  else if (jsTrim email.string).length > 255 then
    ["Email exceeds maximum length of 255 characters."]
  else []

/-- Single-character global replacement, the semantics of
`String.prototype.replace` with a one-character global regex. -/
def replaceAll (pat : Char) (rep : List Char) : List Char → List Char
  | [] => []
  | c :: cs => (if c = pat then rep else [c]) ++ replaceAll pat rep cs

/-- Embedding of `sanitizeHtml` (server.js): the five sequential global
replacements, `&` first. -/
def sanitizeHtml (s : String) : String :=
  String.mk
    (replaceAll '\x27' "&#x27;".data
      (replaceAll '"' "&quot;".data
        (replaceAll '>' "&gt;".data
          (replaceAll '<' "&lt;".data
            (replaceAll '&' "&amp;".data s.data)))))

/-- Per-character escape map: the five HTML-significant characters to their
entities, every other character kept. `sanitizeHtml` is proved to coincide
with mapping this over the string. -/
def escapeChar (c : Char) : List Char :=
  if c = '&' then "&amp;".data
  else if c = '<' then "&lt;".data
  else if c = '>' then "&gt;".data
  else if c = '"' then "&quot;".data
  else if c = '\x27' then "&#x27;".data
  else [c]

/-! ### Validators -/

/-- Request body of `POST /api/register`. -/
structure RegInput where
  name : JSField
  email : JSField
  address : JSField
  contact : JSField

/-- Normalized registration data returned on valid input. -/
structure RegData where
  name : String
  email : String
  address : String
  contact : String
  deriving Repr, DecidableEq

/-- Embedding of `validateRegistration` (server.js): name via
`validateStringField(…,'Name',1,100)`, the email branch, contact via
`validateStringField(…,'Contact',1,20)`, and the optional address bound of
500; errors accumulate in that order and any error yields
`{valid:false, errors}`. -/
def validateRegistration (d : RegInput) : Except (List String) RegData :=
  let nameValidation := validateStringField d.name "Name" 1 100
  let contactValidation := validateStringField d.contact "Contact" 1 20
  let addressErrors :=
    if d.address.truthy && (jsTrim d.address.string).length > 500 then
      ["Address exceeds maximum length of 500 characters."]
    else []
  let errors :=
    errOf nameValidation ++ emailFieldErrors d.email ++
      errOf contactValidation ++ addressErrors
  if errors.isEmpty then
    .ok { name := valOf nameValidation
          email := jsTrim d.email.string
          address := if d.address.truthy then jsTrim d.address.string else ""
          contact := valOf contactValidation }
  else .error errors

/-- Request body of `POST /api/contact`. -/
structure ContactInput where
  name : JSField
  email : JSField
  message : JSField

/-- Normalized contact data returned on valid input. -/
structure ContactData where
  name : String
  email : String
  message : String
  deriving Repr, DecidableEq

/-- Embedding of `validateContact` (server.js): name (1..100), the email
branch, message via `validateStringField(…,'Message',10,5000)`. -/
def validateContact (d : ContactInput) : Except (List String) ContactData :=
  let nameValidation := validateStringField d.name "Name" 1 100
  let messageValidation := validateStringField d.message "Message" 10 5000
  let errors :=
    errOf nameValidation ++ emailFieldErrors d.email ++ errOf messageValidation
  if errors.isEmpty then
    .ok { name := valOf nameValidation
          email := jsTrim d.email.string
          message := valOf messageValidation }
  else .error errors

/-- The `score` field of `POST /api/score`: absent (or null), a number, or
a present value of some other type. -/
inductive ScoreField
  | missing
  | num (q : ℚ)
  | othr
  deriving Repr

/-- Request body of `POST /api/score`. -/
structure ScoreInput where
  score : ScoreField
  details : JSField

/-- Normalized score data returned on valid input. -/
structure ScoreData where
  score : ℚ
  details : Option String
  deriving Repr, DecidableEq

/-- Embedding of `validateScore` (server.js). -/
def validateScore (d : ScoreInput) : Except (List String) ScoreData :=
  let scoreErrors :=
    match d.score with
    | .missing => ["Score is required."]
    | .othr => ["Score must be a number."]
    | .num q => if q < 0 ∨ q > 4 then ["Score must be between 0 and 4."] else []
  let detailsErrors :=
    if d.details.truthy && (jsTrim d.details.string).length > 1000 then
      ["Details exceed maximum length of 1000 characters."]
    else []
  let errors := scoreErrors ++ detailsErrors
  if errors.isEmpty then
    .ok { score := match d.score with | .num q => q | _ => 0
          details := if d.details.truthy then some (jsTrim d.details.string) else none }
  else .error errors

/-- The `to` field of `POST /api/send-mail`: absent (or another falsy
value), a string, an array of strings, or a truthy value of some other
type. An empty array is truthy in JS. -/
inductive MailTo
  | missing
  | str (s : String)
  | arr (es : List String)
  | othr
  deriving Repr

/-- JS truthiness of the `to` field (`!data.to`). -/
def MailTo.truthy : MailTo → Bool
  | .missing => false
  | .str s => s ≠ ""
  | .arr _ => true
  | .othr => true

/-- Request body of `POST /api/send-mail`. -/
structure MailInput where
  toAddr : MailTo
  subject : JSField
  body : JSField

/-- Normalized mail data returned on valid input. -/
structure MailData where
  toAddr : List String
  subject : String
  body : String
  deriving Repr, DecidableEq

/-- The recipient checks of `validateMail` (server.js): falsy `to` pushes
"Recipient email is required."; an array is checked element-wise; a
non-empty string is regex-checked; any other truthy value pushes the type
error. -/
def recipientErrors : MailTo → List String
  | .missing => ["Recipient email is required."]
  | .str s =>
    if s = "" then ["Recipient email is required."]
    else if isValidEmail (jsTrim s) then [] else ["Recipient email format is invalid."]
  | .arr es =>
    es.filterMap fun e =>
      if isValidEmail (jsTrim e) then none else some ("Invalid email format: " ++ e)
  | .othr => ["Recipient must be a string or array of strings."]

/-- Embedding of `validateMail` (server.js): recipient checks, subject via
`validateStringField(…,'Subject',1,255)`, body via
`validateStringField(…,'Message body',1,10000)`; on success the `to` list
is the trimmed array (a lone string becoming a singleton). -/
def validateMail (d : MailInput) : Except (List String) MailData :=
  let subjectValidation := validateStringField d.subject "Subject" 1 255
  let bodyValidation := validateStringField d.body "Message body" 1 10000
  let errors := recipientErrors d.toAddr ++ errOf subjectValidation ++ errOf bodyValidation
  if errors.isEmpty then
    .ok { toAddr := match d.toAddr with
            | .arr es => es.map jsTrim
            | .str s => [jsTrim s]
            | _ => []
          subject := valOf subjectValidation
          body := valOf bodyValidation }
  else .error errors

/-! ### Route handlers

Each handler is modelled as a pure function of the request body plus its
external collaborators: `now` (the `new Date().toISOString()` timestamp)
and `db` (the insert outcome: `some id` when the insert resolves with
`lastID = id`, `none` when it rejects). A handler returns the
`HttpResponse` together with the row it handed to the insert (`none` when
validation failed before any insert). -/

/-- The `res.status(400).json({success:false, errors})` response shared by
all four POST handlers on validation failure. -/
def validationFailureResponse (errors : List String) : HttpResponse :=
  { status := 400
    body := .obj [("success", .bool false), ("errors", .arr (errors.map .str))] }

/-- A `registrations` row as built in the `/api/register` handler. -/
structure RegEntry where
  name : String
  email : String
  address : String
  contact : String
  receivedAt : String
  deriving Repr, DecidableEq

/-- Embedding of the `POST /api/register` handler (server.js). -/
def postRegister (d : RegInput) (now : String) (db : Option ℕ) :
    HttpResponse × Option RegEntry :=
  match validateRegistration d with
  | .error errors => (validationFailureResponse errors, none)
  | .ok v =>
    let entry : RegEntry :=
      { name := sanitizeHtml v.name
        email := v.email
        address := sanitizeHtml v.address
        contact := v.contact
        receivedAt := now }
    match db with
    | some id =>
      ({ status := 200
         body := .obj [("success", .bool true), ("id", .num id),
           ("message", .str "Registration successful.")] }, some entry)
    | none =>
      ({ status := 500
         body := .obj [("success", .bool false),
           ("message", .str "Could not save registration.")] }, some entry)

/-- A `contacts` row as built in the `/api/contact` handler. -/
structure ContactEntry where
  name : String
  email : String
  message : String
  receivedAt : String
  deriving Repr, DecidableEq

/-- Embedding of the `POST /api/contact` handler (server.js). -/
def postContact (d : ContactInput) (now : String) (db : Option ℕ) :
    HttpResponse × Option ContactEntry :=
  match validateContact d with
  | .error errors => (validationFailureResponse errors, none)
  | .ok v =>
    let entry : ContactEntry :=
      { name := sanitizeHtml v.name
        email := v.email
        message := sanitizeHtml v.message
        receivedAt := now }
    match db with
    | some id =>
      ({ status := 200
         body := .obj [("success", .bool true), ("id", .num id),
           ("message", .str "Contact form submitted successfully.")] }, some entry)
    | none =>
      ({ status := 500
         body := .obj [("success", .bool false),
           ("message", .str "Could not save contact.")] }, some entry)

/-- A `scores` row as built in the `/api/score` handler. -/
structure ScoreEntry where
  score : ℚ
  details : Option String
  receivedAt : String
  deriving Repr, DecidableEq

/-- Embedding of the `POST /api/score` handler (server.js). -/
def postScore (d : ScoreInput) (now : String) (db : Option ℕ) :
    HttpResponse × Option ScoreEntry :=
  match validateScore d with
  | .error errors => (validationFailureResponse errors, none)
  | .ok v =>
    let entry : ScoreEntry := { score := v.score, details := v.details, receivedAt := now }
    match db with
    | some id =>
      ({ status := 200
         body := .obj [("success", .bool true), ("id", .num id),
           ("message", .str "Score recorded successfully.")] }, some entry)
    | none =>
      ({ status := 500
         body := .obj [("success", .bool false),
           ("message", .str "Could not save score.")] }, some entry)

/-- A `mails` row. `status` starts `'pending'` at insert and is updated
once after the delivery attempt; `sentAt`/`error` are NULL until then. -/
structure MailRecord where
  recipients : String
  subject : String
  body : String
  status : String
  sentAt : Option String
  error : Option String
  deriving Repr, DecidableEq

/-- JS truthiness of an environment variable (`if (smtpHost)`): set and
non-empty. -/
def envTruthy : Option String → Bool
  | some s => s ≠ ""
  | none => false

/-- `process.env.X || dflt`: the variable when set and non-empty, the
default otherwise. -/
def envOr (v : Option String) (dflt : String) : String :=
  match v with
  | some s => if s = "" then dflt else s
  | none => dflt

/-- Embedding of the `POST /api/send-mail` handler (server.js).
`smtpHost` is `process.env.SMTP_HOST`; `sendResult` is the outcome of
`transporter.sendMail` (`.error e` when it throws with message `e`),
consulted only when SMTP is configured. The second component is the pair
(row as inserted, row after the single `UPDATE`), `none` when nothing was
inserted. -/
def postSendMail (d : MailInput) (smtpHost : Option String)
    (sendResult : Except String Unit) (db : Option ℕ) (now : String) :
    HttpResponse × Option (MailRecord × MailRecord) :=
  match validateMail d with
  | .error errors => (validationFailureResponse errors, none)
  | .ok v =>
    let recipients := String.intercalate "," v.toAddr
    let record : MailRecord :=
      { recipients := recipients
        subject := sanitizeHtml v.subject
        body := sanitizeHtml v.body
        status := "pending"
        sentAt := none
        error := none }
    match db with
    | none =>
      ({ status := 500
         body := .obj [("success", .bool false),
           ("message", .str "Could not record mail.")] }, none)
    | some mailId =>
      if envTruthy smtpHost then
        match sendResult with
        | .ok _ =>
          ({ status := 200
             body := .obj [("success", .bool true), ("id", .num mailId),
               ("sent", .bool true), ("message", .str "Email sent successfully.")] },
           some (record, { record with status := "sent", sentAt := some now }))
        | .error e =>
          ({ status := 500
             body := .obj [("success", .bool false), ("id", .num mailId),
               ("sent", .bool false), ("message", .str "Mail send failed, logged.")] },
           some (record, { record with status := "failed", error := some e }))
      else
        ({ status := 200
           body := .obj [("success", .bool true), ("id", .num mailId),
             ("sent", .bool false), ("message", .str "No SMTP configured; mail recorded.")] },
         some (record, { record with status := "mocked" }))

/-! ### Admin gate (Basic HTTP Auth) -/

/-- Embedding of `parseBasicAuth` (server.js). `b64` is the
`Buffer.from(·,'base64').toString()` capability; `authHeader` the request's
Authorization header. Returns the (user, pass) pair, `pass` rejoining
everything after the first `:` of the decoded string. -/
def parseBasicAuth (b64 : String → String) (authHeader : Option String) :
    Option (String × String) :=
  match authHeader with
  | none => none
  | some h =>
    if jsStartsWith h "Basic " then
      let parts :=
        (splitAtChar ':' (b64 (((splitAtChar ' ' h.data).map String.mk).getD 1 "")).data).map String.mk
      some (parts.getD 0 "", String.intercalate ":" (parts.drop 1))
    else none

/-- Embedding of `requireAdmin` (server.js): `some response` when the
middleware answers 401 itself, `none` when it calls `next()` and the admin
page is rendered. `envUser`/`envPass` are `ADMIN_USER`/`ADMIN_PASS`. -/
def requireAdmin (b64 : String → String) (authHeader : Option String)
    (envUser envPass : Option String) : Option HttpResponse :=
  let adminUser := envOr envUser "admin"
  let adminPass := envOr envPass "admin123"
  match parseBasicAuth b64 authHeader with
  | none =>
    some { status := 401
           headers := [("WWW-Authenticate", "Basic realm=\x22Admin Area\x22")]
           body := .str "Authentication required" }
  | some creds =>
    if creds.1 = adminUser ∧ creds.2 = adminPass then none
    else
      some { status := 401
             headers := [("WWW-Authenticate", "Basic realm=\x22Admin Area\x22")]
             body := .str "Invalid credentials" }

/-- Whether `GET /admin` reaches the table-dump rendering: exactly when the
`requireAdmin` middleware calls `next()`. -/
def adminRendered (b64 : String → String) (authHeader : Option String)
    (envUser envPass : Option String) : Bool :=
  (requireAdmin b64 authHeader envUser envPass).isNone

/-! ## Helper lemmas -/

lemma filterMap_id_map_some (vals : List ℕ) :
    (vals.map some).filterMap id = vals := by
  induction vals with
  | nil => rfl
  | cons v vs ih => simp [ih]

lemma length_filterMap_id_lt_of_none_mem {l : List (Option ℕ)} (h : none ∈ l) :
    (l.filterMap id).length < l.length := by
  induction l with
  | nil => cases h
  | cons a t ih =>
    cases a with
    | none =>
      simp only [List.filterMap_cons, id, List.length_cons]
      exact Nat.lt_succ_of_le (List.length_filterMap_le id t)
    | some v =>
      have ht : none ∈ t := by
        rcases List.mem_cons.mp h with h' | h'
        · cases h'
        · exact h'
      simp only [List.filterMap_cons, id, List.length_cons]
      exact Nat.succ_lt_succ (ih ht)

lemma replaceAll_append (pat : Char) (rep : List Char) (a b : List Char) :
    replaceAll pat rep (a ++ b) = replaceAll pat rep a ++ replaceAll pat rep b := by
  induction a with
  | nil => rfl
  | cons c cs ih => simp [replaceAll, ih]

lemma sanitize_head (c : Char) :
    replaceAll '\x27' "&#x27;".data
      (replaceAll '"' "&quot;".data
        (replaceAll '>' "&gt;".data
          (replaceAll '<' "&lt;".data
            (replaceAll '&' "&amp;".data [c])))) = escapeChar c := by
  by_cases h1 : c = '&'
  · subst h1; decide
  by_cases h2 : c = '<'
  · subst h2; decide
  by_cases h3 : c = '>'
  · subst h3; decide
  by_cases h4 : c = '"'
  · subst h4; decide
  by_cases h5 : c = '\x27'
  · subst h5; decide
  · simp [replaceAll, escapeChar, h1, h2, h3, h4, h5]

lemma sanitizeHtml_data (l : List Char) :
    replaceAll '\x27' "&#x27;".data
      (replaceAll '"' "&quot;".data
        (replaceAll '>' "&gt;".data
          (replaceAll '<' "&lt;".data
            (replaceAll '&' "&amp;".data l)))) = l.flatMap escapeChar := by
  induction l with
  | nil => rfl
  | cons c cs ih =>
    have hsplit : replaceAll '&' "&amp;".data (c :: cs) =
        replaceAll '&' "&amp;".data [c] ++ replaceAll '&' "&amp;".data cs := by
      simpa using replaceAll_append '&' "&amp;".data [c] cs
    rw [hsplit, replaceAll_append, replaceAll_append, replaceAll_append,
      replaceAll_append, sanitize_head, ih]
    simp

/-! ## Claim theorems -/

/-- C1: for every complete set of 12 answers, each an integer in {1..4},
`calculateScore` computes the average of the answers and maps it to exactly
one of the four bands: average ≥ 3.5 yields "Healthy", average in [3, 3.5)
yields "Mild Concerns", average in [2.5, 3) yields "Moderate Concerns", and
any smaller average yields "Severe Concerns"; the categorization is a pure
function of the answers with no persistence dependency. -/
theorem C1_score_categorization (vals : List ℕ)
    (hlen : vals.length = 12)
    (_hrange : ∀ v ∈ vals, 1 ≤ v ∧ v ≤ 4) :
    ∃ state advice bg color,
      calculateScore (vals.map some) =
        .outcome state advice bg color ((vals.sum : ℚ) / 12) ∧
      ((((vals.sum : ℚ) / 12 ≥ 3.5) ∧ state = "Healthy") ∨
       ((3 ≤ (vals.sum : ℚ) / 12 ∧ (vals.sum : ℚ) / 12 < 3.5) ∧ state = "Mild Concerns") ∨
       ((2.5 ≤ (vals.sum : ℚ) / 12 ∧ (vals.sum : ℚ) / 12 < 3) ∧ state = "Moderate Concerns") ∨
       (((vals.sum : ℚ) / 12 < 2.5) ∧ state = "Severe Concerns")) := by
  have hmap := filterMap_id_map_some vals
  simp only [calculateScore, hmap, hlen, lt_irrefl, if_false]
  split_ifs with h1 h2 h3
  · exact ⟨_, _, _, _, rfl, Or.inl ⟨h1, rfl⟩⟩
  · exact ⟨_, _, _, _, rfl, Or.inr (Or.inl ⟨⟨h2, not_le.mp h1⟩, rfl⟩)⟩
  · exact ⟨_, _, _, _, rfl, Or.inr (Or.inr (Or.inl ⟨⟨h3, not_le.mp h2⟩, rfl⟩))⟩
  · exact ⟨_, _, _, _, rfl, Or.inr (Or.inr (Or.inr ⟨not_le.mp h3, rfl⟩))⟩

/-- Witness for C1 at the concrete answer set [4,4,4,4,4,4,4,4,4,4,3,3]
(average 46/12 ≥ 3.5). -/
theorem C1_witness :
    ∃ state advice bg color,
      calculateScore (([4,4,4,4,4,4,4,4,4,4,3,3] : List ℕ).map some) =
        .outcome state advice bg color ((([4,4,4,4,4,4,4,4,4,4,3,3] : List ℕ).sum : ℚ) / 12) ∧
      ((((([4,4,4,4,4,4,4,4,4,4,3,3] : List ℕ).sum : ℚ) / 12 ≥ 3.5) ∧ state = "Healthy") ∨
       ((3 ≤ ((([4,4,4,4,4,4,4,4,4,4,3,3] : List ℕ).sum : ℚ) / 12) ∧ ((([4,4,4,4,4,4,4,4,4,4,3,3] : List ℕ).sum : ℚ) / 12) < 3.5) ∧ state = "Mild Concerns") ∨
       ((2.5 ≤ ((([4,4,4,4,4,4,4,4,4,4,3,3] : List ℕ).sum : ℚ) / 12) ∧ ((([4,4,4,4,4,4,4,4,4,4,3,3] : List ℕ).sum : ℚ) / 12) < 3) ∧ state = "Moderate Concerns") ∨
       ((((([4,4,4,4,4,4,4,4,4,4,3,3] : List ℕ).sum : ℚ) / 12) < 2.5) ∧ state = "Severe Concerns")) :=
  C1_score_categorization [4,4,4,4,4,4,4,4,4,4,3,3] (by decide) (by decide)

/-- C2: whenever at least one of the 12 answers is missing,
`calculateScore` enters the warning state: the results container gets the
prompt to answer all questions (with the warning colors) and the function
returns before computing any average or band. -/
theorem C2_incomplete_warning (answers : List (Option ℕ))
    (hlen : answers.length = 12) (hmiss : none ∈ answers) :
    calculateScore answers =
      .warning "<h3>Please answer all questions to see your score.</h3>" "#ffc107" "#333" := by
  have hlt : (answers.filterMap id).length < 12 :=
    hlen ▸ length_filterMap_id_lt_of_none_mem hmiss
  simp only [calculateScore, if_pos hlt]

/-- Witness for C2 at a concrete answer set with question 5 unanswered. -/
theorem C2_witness :
    calculateScore [some 4, some 4, some 4, some 4, none, some 4, some 4, some 4, some 4, some 4, some 4, some 4] =
      .warning "<h3>Please answer all questions to see your score.</h3>" "#ffc107" "#333" :=
  C2_incomplete_warning _ (by decide) (by decide)

/-- C3: a contact submission whose trimmed message has length 9 fails
validation and the handler responds HTTP 400; one whose trimmed message has
length between 10 and 5000, with name and email also valid, passes
validation and is accepted (HTTP 200 on insert success). -/
theorem C3_contact_message_length :
    (∀ (name email : JSField) (msg now : String) (db : Option ℕ),
        (jsTrim msg).length = 9 →
        ∃ errors, validateContact ⟨name, email, .str msg⟩ = .error errors ∧
          (postContact ⟨name, email, .str msg⟩ now db).1 = validationFailureResponse errors ∧
          (validationFailureResponse errors).status = 400) ∧
    (∀ (name email : JSField) (msg now : String) (id : ℕ) (n : String),
        validateStringField name "Name" 1 100 = .ok n →
        emailFieldErrors email = [] →
        10 ≤ (jsTrim msg).length → (jsTrim msg).length ≤ 5000 →
        validateContact ⟨name, email, .str msg⟩ =
          .ok ⟨n, jsTrim email.string, jsTrim msg⟩ ∧
        (postContact ⟨name, email, .str msg⟩ now (some id)).1.status = 200) := by
  constructor
  · intro name email msg now db h9
    have hmsg : validateStringField (.str msg) "Message" 10 5000 =
        .error "Message is required (minimum 10 character)." := by
      simp only [validateStringField]
      rw [if_pos (by omega)]
      exact congrArg Except.error (by decide)
    have hval : validateContact ⟨name, email, .str msg⟩ =
        .error (errOf (validateStringField name "Name" 1 100) ++ emailFieldErrors email ++
          ["Message is required (minimum 10 character)."]) := by
      simp only [validateContact, hmsg, errOf]
      rw [if_neg (by simp)]
    exact ⟨_, hval, by simp only [postContact, hval], rfl⟩
  · intro name email msg now id n hn he h10 h5000
    have hmsg : validateStringField (.str msg) "Message" 10 5000 = .ok (jsTrim msg) := by
      simp only [validateStringField]
      rw [if_neg (by omega), if_neg (by omega)]
    have hval : validateContact ⟨name, email, .str msg⟩ =
        .ok ⟨n, jsTrim email.string, jsTrim msg⟩ := by
      simp only [validateContact, hn, hmsg, he, errOf, valOf]
      rfl
    exact ⟨hval, by simp only [postContact, hval]⟩

/-- Witness for C3: a 9-character message is rejected with 400; a valid
10-character submission is accepted with 200. -/
theorem C3_witness :
    (∃ errors, validateContact ⟨.missing, .missing, .str "123456789"⟩ = .error errors ∧
        (postContact ⟨.missing, .missing, .str "123456789"⟩ "T" none).1 = validationFailureResponse errors ∧
        (validationFailureResponse errors).status = 400) ∧
    (validateContact ⟨.str "Al", .str "a@b.c", .str "exactly10!"⟩ =
        .ok ⟨"Al", jsTrim (JSField.str "a@b.c").string, jsTrim "exactly10!"⟩ ∧
      (postContact ⟨.str "Al", .str "a@b.c", .str "exactly10!"⟩ "T" (some 7)).1.status = 200) :=
  ⟨C3_contact_message_length.1 .missing .missing "123456789" "T" none (by decide),
   C3_contact_message_length.2 (.str "Al") (.str "a@b.c") "exactly10!" "T" 7 "Al"
     rfl (by decide) (by decide) (by decide)⟩

/-- C4: `sanitizeHtml` escapes exactly the fixed set of HTML-significant
characters & < > \x22 \x27 — each of the five is replaced by its HTML entity
and every other character is kept — and every handler applies it to the
free-text fields (registration name and address, contact name and message,
mail subject and body) in the row handed to the insert, i.e. before the
value is stored. -/
theorem C4_sanitization :
    (∀ s : String, sanitizeHtml s = String.mk (s.data.flatMap escapeChar)) ∧
    (∀ c : Char, c ∉ (['&', '<', '>', '"', '\x27'] : List Char) → escapeChar c = [c]) ∧
    (escapeChar '&' = "&amp;".data ∧ escapeChar '<' = "&lt;".data ∧
      escapeChar '>' = "&gt;".data ∧ escapeChar '"' = "&quot;".data ∧
      escapeChar '\x27' = "&#x27;".data) ∧
    (∀ (d : RegInput) (now : String) (db : Option ℕ) (v : RegData),
        validateRegistration d = .ok v →
        (postRegister d now db).2 =
          some ⟨sanitizeHtml v.name, v.email, sanitizeHtml v.address, v.contact, now⟩) ∧
    (∀ (d : ContactInput) (now : String) (db : Option ℕ) (v : ContactData),
        validateContact d = .ok v →
        (postContact d now db).2 =
          some ⟨sanitizeHtml v.name, v.email, sanitizeHtml v.message, now⟩) ∧
    (∀ (d : MailInput) (smtp : Option String) (sr : Except String Unit)
        (mailId : ℕ) (now : String) (v : MailData),
        validateMail d = .ok v →
        ∃ fin, (postSendMail d smtp sr (some mailId) now).2 =
          some (⟨String.intercalate "," v.toAddr, sanitizeHtml v.subject,
            sanitizeHtml v.body, "pending", none, none⟩, fin)) := by
  refine ⟨?_, ?_, ⟨rfl, rfl, rfl, rfl, rfl⟩, ?_, ?_, ?_⟩
  · intro s
    unfold sanitizeHtml
    exact congrArg String.mk (sanitizeHtml_data s.data)
  · intro c hc
    simp only [List.mem_cons, List.not_mem_nil, or_false] at hc
    push_neg at hc
    obtain ⟨h1, h2, h3, h4, h5⟩ := hc
    simp [escapeChar, h1, h2, h3, h4, h5]
  · intro d now db v hv
    cases db <;> simp [postRegister, hv]
  · intro d now db v hv
    cases db <;> simp [postContact, hv]
  · intro d smtp sr mailId now v hv
    simp only [postSendMail, hv]
    cases hs : envTruthy smtp
    · simp only [hs, Bool.false_eq_true, if_false]
      exact ⟨_, rfl⟩
    · simp only [hs, if_true]
      cases sr with
      | ok u => exact ⟨_, rfl⟩
      | error e => exact ⟨_, rfl⟩

/-- Witness for C4 at concrete characters and concrete requests for the
register, contact and send-mail handlers. -/
theorem C4_witness :
    escapeChar 'x' = ['x'] ∧
    (postRegister ⟨.str "Al<i>", .str "a@b.c", .str "5 Main & Co", .str "12345"⟩ "T" (some 1)).2 =
      some ⟨sanitizeHtml "Al<i>", "a@b.c", sanitizeHtml "5 Main & Co", "12345", "T"⟩ ∧
    (postContact ⟨.str "Bo", .str "b@c.d", .str "hello there!"⟩ "T" (some 2)).2 =
      some ⟨sanitizeHtml "Bo", "b@c.d", sanitizeHtml "hello there!", "T"⟩ ∧
    (∃ fin, (postSendMail ⟨.str "a@b.c", .str "Hi <b>", .str "Body & more"⟩ none (.ok ()) (some 3) "T").2 =
      some (⟨String.intercalate "," ["a@b.c"], sanitizeHtml "Hi <b>",
        sanitizeHtml "Body & more", "pending", none, none⟩, fin)) :=
  ⟨C4_sanitization.2.1 'x' (by decide),
   C4_sanitization.2.2.2.1 ⟨.str "Al<i>", .str "a@b.c", .str "5 Main & Co", .str "12345"⟩
     "T" (some 1) ⟨"Al<i>", "a@b.c", "5 Main & Co", "12345"⟩ rfl,
   C4_sanitization.2.2.2.2.1 ⟨.str "Bo", .str "b@c.d", .str "hello there!"⟩
     "T" (some 2) ⟨"Bo", "b@c.d", "hello there!"⟩ rfl,
   C4_sanitization.2.2.2.2.2 ⟨.str "a@b.c", .str "Hi <b>", .str "Body & more"⟩
     none (.ok ()) 3 "T" ⟨["a@b.c"], "Hi <b>", "Body & more"⟩ rfl⟩

/-- C5: for every valid mail request made with SMTP_HOST unset, the mail
record is stored (status 'pending') and immediately updated to status
'mocked', and the server responds HTTP 200 with success:true and
sent:false. -/
theorem C5_no_smtp_mocked (d : MailInput) (v : MailData) (sr : Except String Unit)
    (mailId : ℕ) (now : String) (hv : validateMail d = .ok v) :
    (postSendMail d none sr (some mailId) now).1.status = 200 ∧
    (postSendMail d none sr (some mailId) now).1.body =
      .obj [("success", .bool true), ("id", .num mailId), ("sent", .bool false),
        ("message", .str "No SMTP configured; mail recorded.")] ∧
    ∃ rec, (postSendMail d none sr (some mailId) now).2 =
      some (rec, { rec with status := "mocked" }) ∧ rec.status = "pending" := by
  refine ⟨?_, ?_, ?_⟩
  · simp [postSendMail, hv, envTruthy]
  · simp [postSendMail, hv, envTruthy]
  · simp only [postSendMail, hv, envTruthy, Bool.false_eq_true, if_false]
    exact ⟨_, rfl, rfl⟩

/-- Witness for C5 at a concrete valid mail request (the transport outcome
parameter is irrelevant and set to a failure to show it is never
consulted). -/
theorem C5_witness :
    (postSendMail ⟨.str "a@b.c", .str "S", .str "B"⟩ none (.error "boom") (some 9) "T").1.status = 200 ∧
    (postSendMail ⟨.str "a@b.c", .str "S", .str "B"⟩ none (.error "boom") (some 9) "T").1.body =
      .obj [("success", .bool true), ("id", .num 9), ("sent", .bool false),
        ("message", .str "No SMTP configured; mail recorded.")] ∧
    ∃ rec, (postSendMail ⟨.str "a@b.c", .str "S", .str "B"⟩ none (.error "boom") (some 9) "T").2 =
      some (rec, { rec with status := "mocked" }) ∧ rec.status = "pending" :=
  C5_no_smtp_mocked ⟨.str "a@b.c", .str "S", .str "B"⟩ ⟨["a@b.c"], "S", "B"⟩
    (.error "boom") 9 "T" rfl

/-- C6: for every valid mail request with SMTP configured whose transport
call fails, the failure is recorded in the mail record (status 'failed',
the error message stored) and the server responds HTTP 500 with
sent:false; and in every execution of the handler the stored record starts
with status 'pending' and its single update sets it to one of
{sent, failed, mocked}. -/
theorem C6_mail_failure_and_transitions (d : MailInput) (v : MailData)
    (host e now : String) (mailId : ℕ) (hhost : host ≠ "")
    (hv : validateMail d = .ok v) :
    ((postSendMail d (some host) (.error e) (some mailId) now).1.status = 500 ∧
     (postSendMail d (some host) (.error e) (some mailId) now).1.body =
       .obj [("success", .bool false), ("id", .num mailId), ("sent", .bool false),
         ("message", .str "Mail send failed, logged.")] ∧
     ∃ rec, (postSendMail d (some host) (.error e) (some mailId) now).2 =
       some (rec, { rec with status := "failed", error := some e }) ∧
       rec.status = "pending" ∧ rec.error = none) ∧
    (∀ (d₂ : MailInput) (smtp : Option String) (sr : Except String Unit)
       (db : Option ℕ) (rec fin : MailRecord),
       (postSendMail d₂ smtp sr db now).2 = some (rec, fin) →
       rec.status = "pending" ∧ fin.status ∈ (["sent", "failed", "mocked"] : List String)) := by
  constructor
  · have hh : envTruthy (some host) = true := by simp [envTruthy, hhost]
    refine ⟨?_, ?_, ?_⟩
    · simp [postSendMail, hv, hh]
    · simp [postSendMail, hv, hh]
    · simp only [postSendMail, hv, hh, if_true]
      exact ⟨_, rfl, rfl, rfl⟩
  · intro d₂ smtp sr db rec fin h
    cases hval : validateMail d₂ with
    | error errs => simp [postSendMail, hval] at h
    | ok v₂ =>
      cases db with
      | none => simp [postSendMail, hval] at h
      | some id₂ =>
        cases hs : envTruthy smtp with
        | false =>
          simp only [postSendMail, hval, hs, Bool.false_eq_true, if_false,
            Option.some.injEq, Prod.mk.injEq] at h
          obtain ⟨h1, h2⟩ := h
          subst h1; subst h2
          exact ⟨rfl, by simp⟩
        | true =>
          cases sr with
          | ok u =>
            simp only [postSendMail, hval, hs, if_true, Option.some.injEq,
              Prod.mk.injEq] at h
            obtain ⟨h1, h2⟩ := h
            subst h1; subst h2
            exact ⟨rfl, by simp⟩
          | error err =>
            simp only [postSendMail, hval, hs, if_true, Option.some.injEq,
              Prod.mk.injEq] at h
            obtain ⟨h1, h2⟩ := h
            subst h1; subst h2
            exact ⟨rfl, by simp⟩

/-- Witness for C6 at a concrete failing transport call, and at a concrete
record pair for the transition clause. -/
theorem C6_witness :
    ((postSendMail ⟨.str "a@b.c", .str "S", .str "B"⟩ (some "smtp.example.com")
        (.error "boom") (some 5) "T").1.status = 500 ∧
     (postSendMail ⟨.str "a@b.c", .str "S", .str "B"⟩ (some "smtp.example.com")
        (.error "boom") (some 5) "T").1.body =
       .obj [("success", .bool false), ("id", .num 5), ("sent", .bool false),
         ("message", .str "Mail send failed, logged.")] ∧
     ∃ rec, (postSendMail ⟨.str "a@b.c", .str "S", .str "B"⟩ (some "smtp.example.com")
        (.error "boom") (some 5) "T").2 =
       some (rec, { rec with status := "failed", error := some "boom" }) ∧
       rec.status = "pending" ∧ rec.error = none) ∧
    ((⟨"a@b.c", "S", "B", "pending", none, none⟩ : MailRecord).status = "pending" ∧
     (⟨"a@b.c", "S", "B", "mocked", none, none⟩ : MailRecord).status ∈
       (["sent", "failed", "mocked"] : List String)) :=
  have T := C6_mail_failure_and_transitions ⟨.str "a@b.c", .str "S", .str "B"⟩
    ⟨["a@b.c"], "S", "B"⟩ "smtp.example.com" "boom" "T" 5 (by decide) rfl
  ⟨T.1, T.2 ⟨.str "a@b.c", .str "S", .str "B"⟩ none (.ok ()) (some 5)
    ⟨"a@b.c", "S", "B", "pending", none, none⟩
    ⟨"a@b.c", "S", "B", "mocked", none, none⟩ rfl⟩

/-- C7: a GET /admin request with no Authorization header starting with
'Basic ' is answered 401 with the WWW-Authenticate header set; and the
table dumps are rendered only when the supplied user and password both
equal the configured admin credentials. -/
theorem C7_admin_basic_auth (b64 : String → String) (envU envP : Option String)
    (hdr : Option String) :
    ((hdr = none ∨ ∃ h, hdr = some h ∧ jsStartsWith h "Basic " = false) →
      ∃ resp, requireAdmin b64 hdr envU envP = some resp ∧ resp.status = 401 ∧
        resp.headers = [("WWW-Authenticate", "Basic realm=\x22Admin Area\x22")]) ∧
    (adminRendered b64 hdr envU envP = true →
      ∃ u p, parseBasicAuth b64 hdr = some (u, p) ∧
        u = envOr envU "admin" ∧ p = envOr envP "admin123") := by
  constructor
  · intro hno
    have key : requireAdmin b64 hdr envU envP =
        some ⟨401, [("WWW-Authenticate", "Basic realm=\x22Admin Area\x22")],
          .str "Authentication required"⟩ := by
      rcases hno with rfl | ⟨h, rfl, hsw⟩
      · rfl
      · have hp : parseBasicAuth b64 (some h) = none := by
          simp [parseBasicAuth, hsw]
        simp [requireAdmin, hp]
    exact ⟨_, key, rfl, rfl⟩
  · intro hr
    unfold adminRendered at hr
    rw [Option.isNone_iff_eq_none] at hr
    cases hp : parseBasicAuth b64 hdr with
    | none => simp [requireAdmin, hp] at hr
    | some creds =>
      simp only [requireAdmin, hp] at hr
      by_cases hc : creds.1 = envOr envU "admin" ∧ creds.2 = envOr envP "admin123"
      · exact ⟨creds.1, creds.2, by simp [hp], hc.1, hc.2⟩
      · rw [if_neg hc] at hr; simp at hr

/-- Witness for C7: a request with no header gets the 401 challenge; a
request decoding to admin:admin123 against the default credentials is
rendered. -/
theorem C7_witness :
    (∃ resp, requireAdmin (fun x => x) none none none = some resp ∧ resp.status = 401 ∧
      resp.headers = [("WWW-Authenticate", "Basic realm=\x22Admin Area\x22")]) ∧
    (∃ u p, parseBasicAuth (fun _ => "admin:admin123") (some "Basic abcd") =
        some (u, p) ∧ u = envOr none "admin" ∧ p = envOr none "admin123") :=
  ⟨(C7_admin_basic_auth (fun x => x) none none none).1 (Or.inl rfl),
   (C7_admin_basic_auth (fun _ => "admin:admin123") none none (some "Basic abcd")).2 rfl⟩

/-- C8: a registration whose name field is a string trimming to empty fails
validation and the handler responds HTTP 400 with an error list containing
a message beginning "Name is required". -/
theorem C8_register_empty_name (d : RegInput) (s now : String) (db : Option ℕ)
    (hname : d.name = .str s) (htrim : jsTrim s = "") :
    ∃ errors, validateRegistration d = .error errors ∧
      (∃ e ∈ errors, jsStartsWith e "Name is required" = true) ∧
      (postRegister d now db).1 = validationFailureResponse errors ∧
      (validationFailureResponse errors).status = 400 := by
  have hnv : validateStringField d.name "Name" 1 100 =
      .error "Name is required (minimum 1 character)." := by
    rw [hname]
    simp only [validateStringField, htrim]
    rw [if_pos (by decide)]
    exact congrArg Except.error (by decide)
  have hval : validateRegistration d =
      .error (["Name is required (minimum 1 character)."] ++ emailFieldErrors d.email ++
        errOf (validateStringField d.contact "Contact" 1 20) ++
        (if d.address.truthy && (jsTrim d.address.string).length > 500 then
          ["Address exceeds maximum length of 500 characters."] else [])) := by
    simp only [validateRegistration, hnv, errOf]
    rw [if_neg (by simp)]
  refine ⟨_, hval, ⟨"Name is required (minimum 1 character).", by simp, by decide⟩, ?_, rfl⟩
  simp only [postRegister, hval]

/-- Witness for C8 at a name of three spaces. -/
theorem C8_witness :
    ∃ errors, validateRegistration ⟨.str "   ", .str "a@b.c", .missing, .str "123"⟩ = .error errors ∧
      (∃ e ∈ errors, jsStartsWith e "Name is required" = true) ∧
      (postRegister ⟨.str "   ", .str "a@b.c", .missing, .str "123"⟩ "T" (some 1)).1 =
        validationFailureResponse errors ∧
      (validationFailureResponse errors).status = 400 :=
  C8_register_empty_name ⟨.str "   ", .str "a@b.c", .missing, .str "123"⟩ "   " "T"
    (some 1) rfl (by decide)

/-- C9 counterexample: the register handler's validation-failure response
carries success and errors but no message field, so the claim that the 400
response comes together with a message field is false at this input. -/
theorem C9_counterexample :
    (postRegister ⟨.missing, .missing, .missing, .missing⟩ "T" none).1.status = 400 ∧
    (postRegister ⟨.missing, .missing, .missing, .missing⟩ "T" none).1.body.hasKey "success" = true ∧
    (postRegister ⟨.missing, .missing, .missing, .missing⟩ "T" none).1.body.hasKey "errors" = true ∧
    (postRegister ⟨.missing, .missing, .missing, .missing⟩ "T" none).1.body.hasKey "message" = false :=
  ⟨rfl, rfl, rfl, rfl⟩

/-- C9 (amended): every POST handler responds, on success, HTTP 200 with
success:true, the inserted id, and a message (send-mail additionally a sent
flag); on validation failure, HTTP 400 with success:false and the list of
validation error messages, with no message field. -/
theorem C9_json_response_shape :
    (∀ errors : List String,
      validationFailureResponse errors =
        { status := 400,
          body := .obj [("success", .bool false), ("errors", .arr (errors.map .str))] } ∧
      (validationFailureResponse errors).body.hasKey "message" = false) ∧
    (∀ (d : RegInput) (now : String) (db : Option ℕ) (errors : List String),
      validateRegistration d = .error errors →
      (postRegister d now db).1 = validationFailureResponse errors) ∧
    (∀ (d : ContactInput) (now : String) (db : Option ℕ) (errors : List String),
      validateContact d = .error errors →
      (postContact d now db).1 = validationFailureResponse errors) ∧
    (∀ (d : ScoreInput) (now : String) (db : Option ℕ) (errors : List String),
      validateScore d = .error errors →
      (postScore d now db).1 = validationFailureResponse errors) ∧
    (∀ (d : MailInput) (smtp : Option String) (sr : Except String Unit)
       (db : Option ℕ) (now : String) (errors : List String),
      validateMail d = .error errors →
      (postSendMail d smtp sr db now).1 = validationFailureResponse errors) ∧
    (∀ (d : RegInput) (now : String) (id : ℕ) (v : RegData),
      validateRegistration d = .ok v →
      (postRegister d now (some id)).1 =
        { status := 200, body := .obj [("success", .bool true), ("id", .num id),
            ("message", .str "Registration successful.")] }) ∧
    (∀ (d : ContactInput) (now : String) (id : ℕ) (v : ContactData),
      validateContact d = .ok v →
      (postContact d now (some id)).1 =
        { status := 200, body := .obj [("success", .bool true), ("id", .num id),
            ("message", .str "Contact form submitted successfully.")] }) ∧
    (∀ (d : ScoreInput) (now : String) (id : ℕ) (v : ScoreData),
      validateScore d = .ok v →
      (postScore d now (some id)).1 =
        { status := 200, body := .obj [("success", .bool true), ("id", .num id),
            ("message", .str "Score recorded successfully.")] }) ∧
    (∀ (d : MailInput) (smtp : Option String) (sr : Except String Unit)
       (now : String) (id : ℕ) (v : MailData),
      validateMail d = .ok v → envTruthy smtp = false →
      (postSendMail d smtp sr (some id) now).1 =
        { status := 200, body := .obj [("success", .bool true), ("id", .num id),
            ("sent", .bool false), ("message", .str "No SMTP configured; mail recorded.")] }) ∧
    (∀ (d : MailInput) (smtp : Option String) (now : String) (id : ℕ) (v : MailData),
      validateMail d = .ok v → envTruthy smtp = true →
      (postSendMail d smtp (.ok ()) (some id) now).1 =
        { status := 200, body := .obj [("success", .bool true), ("id", .num id),
            ("sent", .bool true), ("message", .str "Email sent successfully.")] }) := by
  refine ⟨?_, ?_, ?_, ?_, ?_, ?_, ?_, ?_, ?_, ?_⟩
  · intro errors; exact ⟨rfl, rfl⟩
  · intro d now db errors hv; simp [postRegister, hv]
  · intro d now db errors hv; simp [postContact, hv]
  · intro d now db errors hv; simp [postScore, hv]
  · intro d smtp sr db now errors hv; simp [postSendMail, hv]
  · intro d now id v hv; simp [postRegister, hv]
  · intro d now id v hv; simp [postContact, hv]
  · intro d now id v hv; simp [postScore, hv]
  · intro d smtp sr now id v hv hs; simp [postSendMail, hv, hs]
  · intro d smtp now id v hv hs; simp [postSendMail, hv, hs]

/-- Witness for C9 (amended) at a concrete invalid registration and a
concrete valid contact submission. -/
theorem C9_witness :
    (postRegister ⟨.missing, .missing, .missing, .missing⟩ "T" (some 1)).1 =
      validationFailureResponse
        ["Name must be a string.", "Email is required.", "Contact must be a string."] ∧
    (postContact ⟨.str "Bo", .str "b@c.d", .str "hello there!"⟩ "T" (some 2)).1 =
      { status := 200, body := .obj [("success", .bool true), ("id", .num 2),
          ("message", .str "Contact form submitted successfully.")] } :=
  ⟨C9_json_response_shape.2.1 ⟨.missing, .missing, .missing, .missing⟩ "T" (some 1)
     ["Name must be a string.", "Email is required.", "Contact must be a string."] rfl,
   C9_json_response_shape.2.2.2.2.2.2.1 ⟨.str "Bo", .str "b@c.d", .str "hello there!"⟩
     "T" 2 ⟨"Bo", "b@c.d", "hello there!"⟩ rfl⟩

/-- C10: a mail request whose `to` field is an empty array passes
`validateMail` (an empty array is truthy and the per-recipient loop checks
zero elements) when subject and body are valid, and is accepted and stored
with an empty recipients string. -/
theorem C10_empty_recipient_list (subject body : JSField) (sv bv : String)
    (now : String) (mailId : ℕ) (sr : Except String Unit)
    (hs : validateStringField subject "Subject" 1 255 = .ok sv)
    (hb : validateStringField body "Message body" 1 10000 = .ok bv) :
    validateMail ⟨.arr [], subject, body⟩ = .ok ⟨[], sv, bv⟩ ∧
    (postSendMail ⟨.arr [], subject, body⟩ none sr (some mailId) now).1.status = 200 ∧
    ∃ fin, (postSendMail ⟨.arr [], subject, body⟩ none sr (some mailId) now).2 =
      some (⟨"", sanitizeHtml sv, sanitizeHtml bv, "pending", none, none⟩, fin) := by
  have hval : validateMail ⟨.arr [], subject, body⟩ = .ok ⟨[], sv, bv⟩ := by
    simp [validateMail, recipientErrors, hs, hb, errOf, valOf]
  refine ⟨hval, ?_, ?_⟩
  · simp [postSendMail, hval, envTruthy]
  · simp only [postSendMail, hval, envTruthy, Bool.false_eq_true, if_false]
    exact ⟨_, rfl⟩

/-- Witness for C10 at concrete subject "S" and body "B". -/
theorem C10_witness :
    validateMail ⟨.arr [], .str "S", .str "B"⟩ = .ok ⟨[], "S", "B"⟩ ∧
    (postSendMail ⟨.arr [], .str "S", .str "B"⟩ none (.ok ()) (some 4) "T").1.status = 200 ∧
    ∃ fin, (postSendMail ⟨.arr [], .str "S", .str "B"⟩ none (.ok ()) (some 4) "T").2 =
      some (⟨"", sanitizeHtml "S", sanitizeHtml "B", "pending", none, none⟩, fin) :=
  C10_empty_recipient_list (.str "S") (.str "B") "S" "B" "T" 4 (.ok ()) rfl rfl

end MHAW
